import Mathlib

/-!
Shallow embedding of the cw-storage crate (src/typed.rs and src/singleton.rs):
a typed, namespaced accessor layer over a raw byte-oriented key-value store.

Raw keys and stored values are byte strings (`List Nat`).  The raw store is a
map from keys to optional byte strings.  The Rust code is generic over a
`Storage` / `ReadonlyStorage` trait; we mirror that with `StorageImpl` /
`ReadonlyStorageImpl` records over a state type, instantiated with the
function-store `MockStorage` (the mock used by the crate's own tests) and,
for namespaced buckets, with a prefixed view of it.

The external codec boundary (cosmwasm::serde) is a parameter: `to_vec` at
type `T` (used by save) and `from_slice` at type `Option T` — the
instantiation forced in `may_load`, whose match arm returns
`from_slice(&d)` directly at result type `Result<Option<T>>`.
-/

/-- Byte strings: raw keys and raw values of the underlying store. -/
abbrev Bytes := List Nat

/-- The raw backing state: a map from raw keys to stored byte strings. -/
abbrev Store := Bytes → Option Bytes

/-- The empty raw store: no key holds any bytes. -/
def Store.empty : Store := fun _ => none

/-- Point update of the raw store: models `Storage::set`, which totally
overwrites whatever bytes were previously at the key. -/
def Store.setRaw (s : Store) (k v : Bytes) : Store :=
  fun k2 => if k2 = k then some v else s k2

/-- The `Storage` trait of cosmwasm::traits, over a backing state `σ`:
`get(key) -> Option<Vec<u8>>` and `set(key, value)`. -/
structure StorageImpl (σ : Type) where
  get : σ → Bytes → Option Bytes
  set : σ → Bytes → Bytes → σ

/-- The `ReadonlyStorage` trait: only `get`, no write capability. -/
structure ReadonlyStorageImpl (σ : Type) where
  get : σ → Bytes → Option Bytes

/-- `MockStorage` (cosmwasm::mock): the raw function store itself. -/
def MockStorage : StorageImpl Store :=
  { get := fun s k => s k, set := Store.setRaw }

/-- Read-only view of `MockStorage`. -/
def MockReadonly : ReadonlyStorageImpl Store :=
  { get := fun s k => s k }

/-- Modelled from the spec: `key_prefix` from `crate::prefix` (prefix.rs is
not under src/; singleton.rs imports it).  The spec's namespace prefixer
derives, from a name, a byte prefix such that distinct names yield
non-overlapping prefixes; the derivation length-prefixes the name with two
big-endian length bytes. -/
def key_pfx (namespace2 : Bytes) : Bytes :=
  (namespace2.length / 256) % 256 :: namespace2.length % 256 :: namespace2

/-- Modelled from the spec: `PrefixedStorage` from `crate::prefix` (not
under src/): a view of a raw store in which every access prepends the
derived namespace prefix to the caller-supplied key, so a bucket opened
with name `n` addresses composite keys `derive_prefix(n) ++ caller_key`. -/
def PrefixedStorage (pfx : Bytes) : StorageImpl Store :=
  { get := fun s k => s (pfx ++ k)
    set := fun s k v => Store.setRaw s (pfx ++ k) v }

/-- cosmwasm::errors::Error, restricted to the variants this crate
constructs or its tests propagate: `ContractErr { msg }` (used for
uninitialized data), `ParseErr { kind, source }`, `SerializeErr { kind,
source }`, and `Unauthorized`. -/
inductive CwError where
  | contractErr (msg : String)
  | parseErr (kind : String) (source : String)
  | serializeErr (kind : String) (source : String)
  | unauthorized
  deriving DecidableEq

/-- The external codec and type-name boundary for a stored type `T`:
`to_vec : T -> Result<Vec<u8>>` as called by save, `from_slice` at type
`Option T` as instantiated in may_load, and `NamedType::short_type_name`. -/
structure Serde (T : Type) where
  to_vec : T → Except String Bytes
  from_slice : Bytes → Except String (Option T)
  short_type_name : String

/-- `TypedStorage::save`: serializes the value via the codec — on codec
failure, fails with `SerializeErr` carrying the declared type name — and
otherwise performs one raw `set` of the encoded bytes at the caller key.
Returns the result together with the store after the call (the Rust method
mutates through `&mut S`). -/
def TypedStorage.save {σ T : Type} (I : StorageImpl σ) (c : Serde T)
    (st : σ) (key : Bytes) (data : T) : Except CwError Unit × σ :=
  match c.to_vec data with
  | .error e => (.error (.serializeErr c.short_type_name e), st)
  | .ok bz => (.ok (), I.set st key bz)

/-- `TypedStorage::may_load`: reads the raw bytes at the key; absent bytes
give `Ok(None)`; present bytes are decoded by `from_slice` at type
`Option T`, with decode failure reported as `ParseErr` carrying the
declared type name. -/
def TypedStorage.may_load {σ T : Type} (I : StorageImpl σ) (c : Serde T)
    (st : σ) (key : Bytes) : Except CwError (Option T) :=
  match I.get st key with
  | some d =>
    match c.from_slice d with
    | .ok v => .ok v
    | .error e => .error (.parseErr c.short_type_name e)
  | none => .ok none

/-- `TypedStorage::load`: `may_load` with `None` converted into the
uninitialized-data `ContractErr`. -/
def TypedStorage.load {σ T : Type} (I : StorageImpl σ) (c : Serde T)
    (st : σ) (key : Bytes) : Except CwError T :=
  match TypedStorage.may_load I c st key with
  | .error e => .error e
  | .ok none => .error (.contractErr "uninitialized data")
  | .ok (some v) => .ok v

/-- `TypedStorage::update`: load, apply the fallible action, and save the
result; any failure short-circuits before the write. -/
def TypedStorage.update {σ T : Type} (I : StorageImpl σ) (c : Serde T)
    (st : σ) (key : Bytes) (action : T → Except CwError T) :
    Except CwError T × σ :=
  match TypedStorage.load I c st key with
  | .error e => (.error e, st)
  | .ok input =>
    match action input with
    | .error e => (.error e, st)
    | .ok output =>
      match TypedStorage.save I c st key output with
      | (.error e, st2) => (.error e, st2)
      | (.ok _, st2) => (.ok output, st2)

/-- `ReadonlyTypedStorage::may_load`: same body as the mutating may_load,
over a get-only storage. -/
def ReadonlyTypedStorage.may_load {σ T : Type} (R : ReadonlyStorageImpl σ)
    (c : Serde T) (st : σ) (key : Bytes) : Except CwError (Option T) :=
  match R.get st key with
  | some d =>
    match c.from_slice d with
    | .ok v => .ok v
    | .error e => .error (.parseErr c.short_type_name e)
  | none => .ok none

/-- `ReadonlyTypedStorage::load`: same body as the mutating load, over a
get-only storage. -/
def ReadonlyTypedStorage.load {σ T : Type} (R : ReadonlyStorageImpl σ)
    (c : Serde T) (st : σ) (key : Bytes) : Except CwError T :=
  match ReadonlyTypedStorage.may_load R c st key with
  | .error e => .error e
  | .ok none => .error (.contractErr "uninitialized data")
  | .ok (some v) => .ok v

/-- `Singleton::save`: like the typed save but at the fixed composite key
`key_prefix(name)` computed by the constructor (caller key empty). -/
def Singleton.save {σ T : Type} (I : StorageImpl σ) (c : Serde T)
    (name : Bytes) (st : σ) (data : T) : Except CwError Unit × σ :=
  match c.to_vec data with
  | .error e => (.error (.serializeErr c.short_type_name e), st)
  | .ok bz => (.ok (), I.set st (key_pfx name) bz)

/-- `Singleton::may_load`: read and decode at the fixed composite key. -/
def Singleton.may_load {σ T : Type} (I : StorageImpl σ) (c : Serde T)
    (name : Bytes) (st : σ) : Except CwError (Option T) :=
  match I.get st (key_pfx name) with
  | some d =>
    match c.from_slice d with
    | .ok v => .ok v
    | .error e => .error (.parseErr c.short_type_name e)
  | none => .ok none

/-- `Singleton::load`: `may_load` with `None` converted into the
uninitialized-data `ContractErr`. -/
def Singleton.load {σ T : Type} (I : StorageImpl σ) (c : Serde T)
    (name : Bytes) (st : σ) : Except CwError T :=
  match Singleton.may_load I c name st with
  | .error e => .error e
  | .ok none => .error (.contractErr "uninitialized data")
  | .ok (some v) => .ok v

/-- `Singleton::update`: load, apply the fallible action, save the
result; any failure short-circuits before the write. -/
def Singleton.update {σ T : Type} (I : StorageImpl σ) (c : Serde T)
    (name : Bytes) (st : σ) (action : T → Except CwError T) :
    Except CwError T × σ :=
  match Singleton.load I c name st with
  | .error e => (.error e, st)
  | .ok input =>
    match action input with
    | .error e => (.error e, st)
    | .ok output =>
      match Singleton.save I c name st output with
      | (.error e, st2) => (.error e, st2)
      | (.ok _, st2) => (.ok output, st2)

/-- `ReadonlySingleton::may_load`: same body over a get-only storage. -/
def ReadonlySingleton.may_load {σ T : Type} (R : ReadonlyStorageImpl σ)
    (c : Serde T) (name : Bytes) (st : σ) : Except CwError (Option T) :=
  match R.get st (key_pfx name) with
  | some d =>
    match c.from_slice d with
    | .ok v => .ok v
    | .error e => .error (.parseErr c.short_type_name e)
  | none => .ok none

/-- `ReadonlySingleton::load`: same body over a get-only storage. -/
def ReadonlySingleton.load {σ T : Type} (R : ReadonlyStorageImpl σ)
    (c : Serde T) (name : Bytes) (st : σ) : Except CwError T :=
  match ReadonlySingleton.may_load R c name st with
  | .error e => .error e
  | .ok none => .error (.contractErr "uninitialized data")
  | .ok (some v) => .ok v

/-- The bytes of the JSON literal null, the serde encoding of a
unit-like Rust struct. -/
def nullBytes : Bytes := [110, 117, 108, 108]

/-- Concrete codec used in witnesses: naturals encoded as a single byte;
`from_slice` at `Option Nat` decodes the null literal to `None`, a single
byte to `Some`, anything else to an error — mirroring serde_json behaviour
at type `Option<T>`. -/
def natSerde : Serde Nat where
  to_vec n := .ok [n % 256]
  from_slice bz :=
    match bz with
    | [110, 117, 108, 108] => .ok none
    | [b] => .ok (some b)
    | _ => .error "invalid byte sequence"
  short_type_name := "Nat"

/-- Concrete codec for a unit-like stored type (a Rust unit struct, which
serde_json serializes as the null literal and whose `Option` form
deserializes from null as `None`). -/
def unitSerde : Serde Unit where
  to_vec _ := .ok nullBytes
  from_slice bz := if bz = nullBytes then .ok none else .error "expected null"
  short_type_name := "Flag"

/-! ### Helper lemmas (shared across the claim theorems) -/

/-- Reading back the key just written yields exactly the written bytes. -/
theorem Store.setRaw_self (s : Store) (k bz : Bytes) :
    Store.setRaw s k bz k = some bz := by
  simp [Store.setRaw]

/-- Writing one key leaves every other raw key untouched. -/
theorem Store.setRaw_other (s : Store) (k k2 bz : Bytes) (h : k2 ≠ k) :
    Store.setRaw s k bz k2 = s k2 := by
  simp [Store.setRaw, h]

/-- Successful serialization makes save a single raw write. -/
theorem TypedStorage.save_eq_ok {σ T : Type} (I : StorageImpl σ) (c : Serde T)
    (st : σ) (key : Bytes) (v : T) (bz : Bytes) (h : c.to_vec v = .ok bz) :
    TypedStorage.save I c st key v = (.ok (), I.set st key bz) := by
  simp [TypedStorage.save, h]

/-- Successful serialization makes the singleton save a single raw write
at the derived composite key. -/
theorem Singleton.saveOne_eq_ok {σ T : Type} (I : StorageImpl σ) (c : Serde T)
    (name : Bytes) (st : σ) (v : T) (bz : Bytes) (h : c.to_vec v = .ok bz) :
    Singleton.save I c name st v = (.ok (), I.set st (key_pfx name) bz) := by
  simp [Singleton.save, h]

/-- may_load over the mock store when no bytes are present. -/
theorem TypedStorage.may_load_of_none {T : Type} (c : Serde T) (s : Store)
    (k : Bytes) (h : s k = none) :
    TypedStorage.may_load MockStorage c s k = .ok none := by
  simp [TypedStorage.may_load, MockStorage, h]

/-- may_load over the mock store when bytes are present. -/
theorem TypedStorage.may_load_of_some {T : Type} (c : Serde T) (s : Store)
    (k d : Bytes) (h : s k = some d) :
    TypedStorage.may_load MockStorage c s k =
      (match c.from_slice d with
       | .ok v => .ok v
       | .error e => .error (.parseErr c.short_type_name e)) := by
  simp [TypedStorage.may_load, MockStorage, h]

/-- Singleton may_load over the mock store when no bytes are present at
the derived composite key. -/
theorem Singleton.mayLoadOne_of_none {T : Type} (c : Serde T) (name : Bytes)
    (s : Store) (h : s (key_pfx name) = none) :
    Singleton.may_load MockStorage c name s = .ok none := by
  simp [Singleton.may_load, MockStorage, h]

/-- Singleton may_load over the mock store when bytes are present. -/
theorem Singleton.mayLoadOne_of_some {T : Type} (c : Serde T) (name : Bytes)
    (s : Store) (d : Bytes) (h : s (key_pfx name) = some d) :
    Singleton.may_load MockStorage c name s =
      (match c.from_slice d with
       | .ok v => .ok v
       | .error e => .error (.parseErr c.short_type_name e)) := by
  simp [Singleton.may_load, MockStorage, h]

/-- load over the mock store at a key holding bytes that decode to a
value. -/
theorem TypedStorage.load_of_decode {T : Type} (c : Serde T) (s : Store)
    (k d : Bytes) (v : T) (h : s k = some d)
    (hdec : c.from_slice d = .ok (some v)) :
    TypedStorage.load MockStorage c s k = .ok v := by
  simp [TypedStorage.load, TypedStorage.may_load_of_some c s k d h, hdec]

/-- Singleton load at the composite key holding bytes that decode to a
value. -/
theorem Singleton.loadOne_of_decode {T : Type} (c : Serde T) (name : Bytes)
    (s : Store) (d : Bytes) (v : T) (h : s (key_pfx name) = some d)
    (hdec : c.from_slice d = .ok (some v)) :
    Singleton.load MockStorage c name s = .ok v := by
  simp [Singleton.load, Singleton.mayLoadOne_of_some c name s d h, hdec]

/-! ### Claim theorems -/

/-- C1: save on a bucket opened with name n encodes the value and writes
the bytes, unchanged, at composite key derive_prefix(n) ++ k, overwriting
unconditionally (the prior store s is arbitrary); the singleton writes at
exactly the namespace prefix. -/
theorem bucket_and_singleton_save_write_composite_key {T : Type}
    (c : Serde T) (n k : Bytes) (v : T) (s : Store) (bz : Bytes)
    (h : c.to_vec v = .ok bz) :
    TypedStorage.save (PrefixedStorage (key_pfx n)) c s k v
        = (.ok (), Store.setRaw s (key_pfx n ++ k) bz)
  ∧ Singleton.save MockStorage c n s v
        = (.ok (), Store.setRaw s (key_pfx n) bz) := by
  constructor
  · rw [TypedStorage.save_eq_ok _ c s k v bz h]
    rfl
  · rw [Singleton.saveOne_eq_ok _ c n s v bz h]
    rfl

/-- Witness for C1 at a concrete codec, name, key, value and store. -/
theorem bucket_and_singleton_save_write_composite_key_witness :
    TypedStorage.save (PrefixedStorage (key_pfx [99])) natSerde Store.empty [1] 5
        = (.ok (), Store.setRaw Store.empty (key_pfx [99] ++ [1]) [5])
  ∧ Singleton.save MockStorage natSerde [99] Store.empty 5
        = (.ok (), Store.setRaw Store.empty (key_pfx [99]) [5]) :=
  bucket_and_singleton_save_write_composite_key natSerde [99] [1] 5 Store.empty [5] rfl

/-- C2: if the codec round-trips on v (encode succeeds and decoding the
encoded bytes returns v), then save followed by load on the same accessor
returns Ok(v); likewise for the singleton's keyless save then load. -/
theorem save_then_load_round_trip {T : Type} (c : Serde T) (s : Store)
    (k n : Bytes) (v : T) (bz : Bytes)
    (henc : c.to_vec v = .ok bz) (hdec : c.from_slice bz = .ok (some v)) :
    TypedStorage.load MockStorage c (TypedStorage.save MockStorage c s k v).2 k = .ok v
  ∧ Singleton.load MockStorage c n (Singleton.save MockStorage c n s v).2 = .ok v := by
  constructor
  · rw [TypedStorage.save_eq_ok MockStorage c s k v bz henc]
    exact TypedStorage.load_of_decode c _ k bz v (Store.setRaw_self s k bz) hdec
  · rw [Singleton.saveOne_eq_ok MockStorage c n s v bz henc]
    exact Singleton.loadOne_of_decode c n _ bz v (Store.setRaw_self s (key_pfx n) bz) hdec

/-- Witness for C2 at a concrete codec, store, key, name and value. -/
theorem save_then_load_round_trip_witness :
    TypedStorage.load MockStorage natSerde
        (TypedStorage.save MockStorage natSerde Store.empty [1] 5).2 [1] = .ok 5
  ∧ Singleton.load MockStorage natSerde [99]
        (Singleton.save MockStorage natSerde [99] Store.empty 5).2 = .ok 5 :=
  save_then_load_round_trip natSerde Store.empty [1] [99] 5 [5] rfl rfl

/-- A concrete initialized store for witnesses: the raw byte 5 encoded at
caller key [1] and the byte 7 at the singleton composite key for name
[9]. -/
def initStore : Store :=
  Store.setRaw (Store.setRaw Store.empty [1] [5]) (key_pfx [9]) [7]

/-- C3: when the stored value loads successfully and the transform
succeeds on it (and the external codec encodes and round-trips the
result), update saves the transformed value at the key, returns it, and a
subsequent load returns it; likewise for the keyless singleton update. -/
theorem update_success_saves_transformed_value {T : Type} (c : Serde T)
    (s : Store) (k n : Bytes) (action : T → Except CwError T)
    (prev next prevS nextS : T) (bz bzS : Bytes)
    (hload : TypedStorage.load MockStorage c s k = .ok prev)
    (hact : action prev = .ok next)
    (henc : c.to_vec next = .ok bz)
    (hdec : c.from_slice bz = .ok (some next))
    (hloadS : Singleton.load MockStorage c n s = .ok prevS)
    (hactS : action prevS = .ok nextS)
    (hencS : c.to_vec nextS = .ok bzS)
    (hdecS : c.from_slice bzS = .ok (some nextS)) :
    TypedStorage.update MockStorage c s k action = (.ok next, Store.setRaw s k bz)
  ∧ TypedStorage.load MockStorage c
        (TypedStorage.update MockStorage c s k action).2 k = .ok next
  ∧ Singleton.update MockStorage c n s action
        = (.ok nextS, Store.setRaw s (key_pfx n) bzS)
  ∧ Singleton.load MockStorage c n
        (Singleton.update MockStorage c n s action).2 = .ok nextS := by
  have hu : TypedStorage.update MockStorage c s k action
      = (.ok next, Store.setRaw s k bz) := by
    rw [TypedStorage.update, hload]
    simp only [hact]
    rw [TypedStorage.save_eq_ok MockStorage c s k next bz henc]
    rfl
  have huS : Singleton.update MockStorage c n s action
      = (.ok nextS, Store.setRaw s (key_pfx n) bzS) := by
    rw [Singleton.update, hloadS]
    simp only [hactS]
    rw [Singleton.saveOne_eq_ok MockStorage c n s nextS bzS hencS]
    rfl
  refine ⟨hu, ?_, huS, ?_⟩
  · rw [hu]
    exact TypedStorage.load_of_decode c _ k bz next (Store.setRaw_self s k bz) hdec
  · rw [huS]
    exact Singleton.loadOne_of_decode c n _ bzS nextS
      (Store.setRaw_self s (key_pfx n) bzS) hdecS

/-- Witness for C3 with the successor transform on an initialized
store. -/
theorem update_success_saves_transformed_value_witness :
    TypedStorage.update MockStorage natSerde initStore [1] (fun x => .ok (x + 1))
        = (.ok 6, Store.setRaw initStore [1] [6])
  ∧ TypedStorage.load MockStorage natSerde
        (TypedStorage.update MockStorage natSerde initStore [1]
          (fun x => .ok (x + 1))).2 [1] = .ok 6
  ∧ Singleton.update MockStorage natSerde [9] initStore (fun x => .ok (x + 1))
        = (.ok 8, Store.setRaw initStore (key_pfx [9]) [8])
  ∧ Singleton.load MockStorage natSerde [9]
        (Singleton.update MockStorage natSerde [9] initStore
          (fun x => .ok (x + 1))).2 = .ok 8 :=
  update_success_saves_transformed_value natSerde initStore [1] [9]
    (fun x => .ok (x + 1)) 5 6 7 8 [6] [8]
    rfl rfl rfl rfl rfl rfl rfl rfl

/-- C4: when the stored value loads successfully but the transform
returns an error, update returns exactly that error and performs no
write: the raw store it leaves behind is the very one it was given, so a
subsequent load still returns the previous value; likewise for the
keyless singleton update. -/
theorem update_transform_error_propagates_no_write {T : Type} (c : Serde T)
    (s : Store) (k n : Bytes) (action : T → Except CwError T)
    (prev prevS : T) (e eS : CwError)
    (hload : TypedStorage.load MockStorage c s k = .ok prev)
    (hact : action prev = .error e)
    (hloadS : Singleton.load MockStorage c n s = .ok prevS)
    (hactS : action prevS = .error eS) :
    TypedStorage.update MockStorage c s k action = (.error e, s)
  ∧ TypedStorage.load MockStorage c
        (TypedStorage.update MockStorage c s k action).2 k = .ok prev
  ∧ Singleton.update MockStorage c n s action = (.error eS, s)
  ∧ Singleton.load MockStorage c n
        (Singleton.update MockStorage c n s action).2 = .ok prevS := by
  have hu : TypedStorage.update MockStorage c s k action = (.error e, s) := by
    rw [TypedStorage.update, hload]
    simp only [hact]
  have huS : Singleton.update MockStorage c n s action = (.error eS, s) := by
    rw [Singleton.update, hloadS]
    simp only [hactS]
  refine ⟨hu, ?_, huS, ?_⟩
  · rw [hu]
    exact hload
  · rw [huS]
    exact hloadS

/-- Witness for C4 with an always-failing transform on an initialized
store, mirroring the crate's update_failure test. -/
theorem update_transform_error_propagates_no_write_witness :
    TypedStorage.update MockStorage natSerde initStore [1]
        (fun _ => .error .unauthorized) = (.error .unauthorized, initStore)
  ∧ TypedStorage.load MockStorage natSerde
        (TypedStorage.update MockStorage natSerde initStore [1]
          (fun _ => .error .unauthorized)).2 [1] = .ok 5
  ∧ Singleton.update MockStorage natSerde [9] initStore
        (fun _ => .error .unauthorized) = (.error .unauthorized, initStore)
  ∧ Singleton.load MockStorage natSerde [9]
        (Singleton.update MockStorage natSerde [9] initStore
          (fun _ => .error .unauthorized)).2 = .ok 7 :=
  update_transform_error_propagates_no_write natSerde initStore [1] [9]
    (fun _ => .error .unauthorized) 5 7 .unauthorized .unauthorized
    rfl rfl rfl rfl

/-- C5: update at a key holding no bytes fails with the uninitialized
ContractErr that load produces, for every transform, and performs no
write: the store is returned unchanged and may_load on it still gives
Ok(None); likewise for the keyless singleton update. -/
theorem update_on_empty_uninitialized_no_write {T : Type} (c : Serde T)
    (s : Store) (k n : Bytes) (action : T → Except CwError T)
    (hk : s k = none) (hn : s (key_pfx n) = none) :
    TypedStorage.update MockStorage c s k action
        = (.error (.contractErr "uninitialized data"), s)
  ∧ TypedStorage.may_load MockStorage c
        (TypedStorage.update MockStorage c s k action).2 k = .ok none
  ∧ Singleton.update MockStorage c n s action
        = (.error (.contractErr "uninitialized data"), s)
  ∧ Singleton.may_load MockStorage c n
        (Singleton.update MockStorage c n s action).2 = .ok none := by
  have hl : TypedStorage.load MockStorage c s k
      = .error (.contractErr "uninitialized data") := by
    rw [TypedStorage.load, TypedStorage.may_load_of_none c s k hk]
  have hlS : Singleton.load MockStorage c n s
      = .error (.contractErr "uninitialized data") := by
    rw [Singleton.load, Singleton.mayLoadOne_of_none c n s hn]
  have hu : TypedStorage.update MockStorage c s k action
      = (.error (.contractErr "uninitialized data"), s) := by
    rw [TypedStorage.update, hl]
  have huS : Singleton.update MockStorage c n s action
      = (.error (.contractErr "uninitialized data"), s) := by
    rw [Singleton.update, hlS]
  refine ⟨hu, ?_, huS, ?_⟩
  · rw [hu]
    exact TypedStorage.may_load_of_none c s k hk
  · rw [huS]
    exact Singleton.mayLoadOne_of_none c n s hn

/-- Witness for C5 on the empty store. -/
theorem update_on_empty_uninitialized_no_write_witness :
    TypedStorage.update MockStorage natSerde Store.empty [1] (fun x => .ok x)
        = (.error (.contractErr "uninitialized data"), Store.empty)
  ∧ TypedStorage.may_load MockStorage natSerde
        (TypedStorage.update MockStorage natSerde Store.empty [1]
          (fun x => .ok x)).2 [1] = .ok none
  ∧ Singleton.update MockStorage natSerde [9] Store.empty (fun x => .ok x)
        = (.error (.contractErr "uninitialized data"), Store.empty)
  ∧ Singleton.may_load MockStorage natSerde [9]
        (Singleton.update MockStorage natSerde [9] Store.empty
          (fun x => .ok x)).2 = .ok none :=
  update_on_empty_uninitialized_no_write natSerde Store.empty [1] [9]
    (fun x => .ok x) rfl rfl

/-- C6: at a composite key holding no bytes, every accessor's may_load
returns Ok(None) — not an error — and every accessor's load fails with
the uninitialized ContractErr, which is a different error from any
Deserialization (ParseErr) error; this holds for the mutating and the
read-only bucket and singleton alike. -/
theorem never_saved_may_load_none_load_uninitialized {T : Type}
    (c : Serde T) (s : Store) (k n : Bytes)
    (hk : s k = none) (hn : s (key_pfx n) = none) :
    TypedStorage.may_load MockStorage c s k = .ok none
  ∧ TypedStorage.load MockStorage c s k
        = .error (.contractErr "uninitialized data")
  ∧ ReadonlyTypedStorage.may_load MockReadonly c s k = .ok none
  ∧ ReadonlyTypedStorage.load MockReadonly c s k
        = .error (.contractErr "uninitialized data")
  ∧ Singleton.may_load MockStorage c n s = .ok none
  ∧ Singleton.load MockStorage c n s
        = .error (.contractErr "uninitialized data")
  ∧ ReadonlySingleton.may_load MockReadonly c n s = .ok none
  ∧ ReadonlySingleton.load MockReadonly c n s
        = .error (.contractErr "uninitialized data")
  ∧ (∀ kind src, CwError.contractErr "uninitialized data"
        ≠ CwError.parseErr kind src) := by
  have hm : TypedStorage.may_load MockStorage c s k = .ok none :=
    TypedStorage.may_load_of_none c s k hk
  have hmr : ReadonlyTypedStorage.may_load MockReadonly c s k = .ok none := by
    simp [ReadonlyTypedStorage.may_load, MockReadonly, hk]
  have hms : Singleton.may_load MockStorage c n s = .ok none :=
    Singleton.mayLoadOne_of_none c n s hn
  have hmrs : ReadonlySingleton.may_load MockReadonly c n s = .ok none := by
    simp [ReadonlySingleton.may_load, MockReadonly, hn]
  refine ⟨hm, ?_, hmr, ?_, hms, ?_, hmrs, ?_, ?_⟩
  · rw [TypedStorage.load, hm]
  · rw [ReadonlyTypedStorage.load, hmr]
  · rw [Singleton.load, hms]
  · rw [ReadonlySingleton.load, hmrs]
  · intro kind src h
    exact CwError.noConfusion h

/-- Witness for C6 on the empty store. -/
theorem never_saved_may_load_none_load_uninitialized_witness :
    TypedStorage.may_load MockStorage natSerde Store.empty [1] = .ok none
  ∧ TypedStorage.load MockStorage natSerde Store.empty [1]
        = .error (.contractErr "uninitialized data")
  ∧ ReadonlyTypedStorage.may_load MockReadonly natSerde Store.empty [1] = .ok none
  ∧ ReadonlyTypedStorage.load MockReadonly natSerde Store.empty [1]
        = .error (.contractErr "uninitialized data")
  ∧ Singleton.may_load MockStorage natSerde [9] Store.empty = .ok none
  ∧ Singleton.load MockStorage natSerde [9] Store.empty
        = .error (.contractErr "uninitialized data")
  ∧ ReadonlySingleton.may_load MockReadonly natSerde [9] Store.empty = .ok none
  ∧ ReadonlySingleton.load MockReadonly natSerde [9] Store.empty
        = .error (.contractErr "uninitialized data")
  ∧ (∀ kind src, CwError.contractErr "uninitialized data"
        ≠ CwError.parseErr kind src) :=
  never_saved_may_load_none_load_uninitialized natSerde Store.empty [1] [9] rfl rfl

/-- C7 counterexample: may_load can return Ok(None) while bytes ARE
present at the key.  In may_load the match arm returns from_slice
directly at result type Result of Option T, so from_slice is instantiated
at Option T; for a unit-like stored type the codec encodes the value as
the JSON null literal and decodes that literal, at Option T, to None.
Here save writes those bytes and may_load on the very same key then
returns Ok(None) even though get returns Some. -/
theorem may_load_present_bytes_can_be_none :
    MockStorage.get
        ((TypedStorage.save MockStorage unitSerde Store.empty [7] ()).2) [7]
        = some nullBytes
  ∧ TypedStorage.may_load MockStorage unitSerde
        ((TypedStorage.save MockStorage unitSerde Store.empty [7] ()).2) [7]
        = .ok none := by
  constructor
  · rfl
  · rfl

/-- C7 amended: may_load returns Ok(None) iff either no bytes are present
at the composite key, or bytes are present and from_slice — instantiated
at Option T — decodes them to None (as the JSON null literal does); when
present bytes decode to a value it returns Ok(Some v), and when decoding
fails it returns a ParseErr carrying the declared type identity.  Stated
for the bucket and the singleton. -/
theorem may_load_none_characterization {T : Type} (c : Serde T) (s : Store)
    (k n : Bytes) :
    (TypedStorage.may_load MockStorage c s k = .ok none ↔
      s k = none ∨ ∃ d, s k = some d ∧ c.from_slice d = .ok none)
  ∧ (∀ d v, s k = some d → c.from_slice d = .ok (some v) →
      TypedStorage.may_load MockStorage c s k = .ok (some v))
  ∧ (∀ d e, s k = some d → c.from_slice d = .error e →
      TypedStorage.may_load MockStorage c s k
        = .error (.parseErr c.short_type_name e))
  ∧ (Singleton.may_load MockStorage c n s = .ok none ↔
      s (key_pfx n) = none
        ∨ ∃ d, s (key_pfx n) = some d ∧ c.from_slice d = .ok none) := by
  refine ⟨?_, ?_, ?_, ?_⟩
  · constructor
    · intro h
      cases hg : s k with
      | none => exact Or.inl rfl
      | some d =>
        refine Or.inr ⟨d, rfl, ?_⟩
        rw [TypedStorage.may_load_of_some c s k d hg] at h
        cases hf : c.from_slice d with
        | ok v =>
          rw [hf] at h
          cases v with
          | none => rfl
          | some w => exact absurd h (by simp)
        | error e =>
          rw [hf] at h
          exact absurd h (by simp)
    · intro h
      rcases h with h | ⟨d, hg, hf⟩
      · exact TypedStorage.may_load_of_none c s k h
      · rw [TypedStorage.may_load_of_some c s k d hg, hf]
  · intro d v hg hf
    rw [TypedStorage.may_load_of_some c s k d hg, hf]
  · intro d e hg hf
    rw [TypedStorage.may_load_of_some c s k d hg, hf]
  · constructor
    · intro h
      cases hg : s (key_pfx n) with
      | none => exact Or.inl rfl
      | some d =>
        refine Or.inr ⟨d, rfl, ?_⟩
        rw [Singleton.mayLoadOne_of_some c n s d hg] at h
        cases hf : c.from_slice d with
        | ok v =>
          rw [hf] at h
          cases v with
          | none => rfl
          | some w => exact absurd h (by simp)
        | error e =>
          rw [hf] at h
          exact absurd h (by simp)
    · intro h
      rcases h with h | ⟨d, hg, hf⟩
      · exact Singleton.mayLoadOne_of_none c n s h
      · rw [Singleton.mayLoadOne_of_some c n s d hg, hf]

/-- Witness for C7's amended characterization: present bytes that decode
to a value give Ok(Some), and present null bytes give Ok(None) through
the backward direction of the iff. -/
theorem may_load_none_characterization_witness :
    TypedStorage.may_load MockStorage natSerde initStore [1] = .ok (some 5)
  ∧ TypedStorage.may_load MockStorage natSerde
        (Store.setRaw Store.empty [1] nullBytes) [1] = .ok none :=
  ⟨(may_load_none_characterization natSerde initStore [1] [9]).2.1 [5] 5 rfl rfl,
   ((may_load_none_characterization natSerde
      (Store.setRaw Store.empty [1] nullBytes) [1] [9]).1).mpr
     (Or.inr ⟨nullBytes, rfl, rfl⟩)⟩

/-- C8: two accessors opened over the same raw store with distinct names
whose derived prefixes never overlap as byte strings are isolated: a
bucket save under name a (at any caller key) leaves every may_load of the
bucket under name b (at any caller key) unchanged, and a singleton save
under name a leaves the singleton may_load under name b unchanged. -/
theorem namespace_isolation {T : Type} (cA cB : Serde T) (a b : Bytes)
    (k k2 : Bytes) (v : T) (s : Store)
    (_hab : a ≠ b)
    (hsep : ∀ t1 t2 : Bytes, key_pfx a ++ t1 ≠ key_pfx b ++ t2) :
    TypedStorage.may_load (PrefixedStorage (key_pfx b)) cB
        (TypedStorage.save (PrefixedStorage (key_pfx a)) cA s k v).2 k2
      = TypedStorage.may_load (PrefixedStorage (key_pfx b)) cB s k2
  ∧ Singleton.may_load MockStorage cB b
        (Singleton.save MockStorage cA a s v).2
      = Singleton.may_load MockStorage cB b s := by
  have hpfx : key_pfx a ≠ key_pfx b := by
    intro h
    exact hsep [] [] (by simp [h])
  constructor
  · cases hv : cA.to_vec v with
    | error e =>
      simp [TypedStorage.save, hv]
    | ok bz =>
      simp only [TypedStorage.save, hv]
      show TypedStorage.may_load (PrefixedStorage (key_pfx b)) cB
        (Store.setRaw s (key_pfx a ++ k) bz) k2 = _
      rw [TypedStorage.may_load, TypedStorage.may_load]
      show (match Store.setRaw s (key_pfx a ++ k) bz (key_pfx b ++ k2) with
        | some d => _ | none => _) = _
      rw [Store.setRaw_other s (key_pfx a ++ k) (key_pfx b ++ k2) bz
        (fun h => hsep k k2 h.symm)]
      rfl
  · cases hv : cA.to_vec v with
    | error e =>
      simp [Singleton.save, hv]
    | ok bz =>
      simp only [Singleton.save, hv]
      show Singleton.may_load MockStorage cB b
        (Store.setRaw s (key_pfx a) bz) = _
      rw [Singleton.may_load, Singleton.may_load]
      show (match Store.setRaw s (key_pfx a) bz (key_pfx b) with
        | some d => _ | none => _) = _
      rw [Store.setRaw_other s (key_pfx a) (key_pfx b) bz
        (fun h => hpfx h.symm)]
      rfl

/-- Witness for C8 with names [1] and [2], whose derived prefixes differ
in their third byte, so no appended caller keys can make them collide. -/
theorem namespace_isolation_witness :
    TypedStorage.may_load (PrefixedStorage (key_pfx [2])) natSerde
        (TypedStorage.save (PrefixedStorage (key_pfx [1])) natSerde
          Store.empty [3] 5).2 [3]
      = TypedStorage.may_load (PrefixedStorage (key_pfx [2])) natSerde
          Store.empty [3]
  ∧ Singleton.may_load MockStorage natSerde [2]
        (Singleton.save MockStorage natSerde [1] Store.empty 5).2
      = Singleton.may_load MockStorage natSerde [2] Store.empty :=
  namespace_isolation natSerde natSerde [1] [2] [3] [3] 5 Store.empty
    (by decide)
    (fun t1 t2 h => by simp [key_pfx] at h)

/-- The complete operation surface of the read-only accessors:
ReadonlyTypedStorage and ReadonlySingleton expose load and may_load and
nothing else — in particular no save and no update. -/
inductive ReadonlyOp where
  | typed_load (key : Bytes)
  | typed_may_load (key : Bytes)
  | singleton_load (name : Bytes)
  | singleton_may_load (name : Bytes)

/-- Run one read-only accessor operation against a store, returning its
result (loads lifted into the optional result shape) together with the
store visible afterwards.  The read-only accessors are built over
ReadonlyStorageImpl, which carries only get, so no operation can produce
a new store: the store is passed through unchanged by construction. -/
def runReadonlyOp {T : Type} (c : Serde T) (op : ReadonlyOp) (st : Store) :
    Except CwError (Option T) × Store :=
  match op with
  | .typed_load key =>
      ((ReadonlyTypedStorage.load MockReadonly c st key).map some, st)
  | .typed_may_load key =>
      (ReadonlyTypedStorage.may_load MockReadonly c st key, st)
  | .singleton_load name =>
      ((ReadonlySingleton.load MockReadonly c name st).map some, st)
  | .singleton_may_load name =>
      (ReadonlySingleton.may_load MockReadonly c name st, st)

/-- C9: every operation in the exhaustive operation set of the read-only
accessors (load and may_load of ReadonlyTypedStorage and
ReadonlySingleton; the enumeration ReadonlyOp contains no write) leaves
the raw store exactly as it was — enforced structurally, because the
read-only accessors are built over the get-only ReadonlyStorageImpl
capability — and each read-only operation observes exactly the same
result as the corresponding mutating accessor's read operation. -/
theorem readonly_ops_do_not_mutate {T : Type} (c : Serde T) (st : Store)
    (op : ReadonlyOp) (key n : Bytes) :
    (runReadonlyOp c op st).2 = st
  ∧ ReadonlyTypedStorage.load MockReadonly c st key
        = TypedStorage.load MockStorage c st key
  ∧ ReadonlyTypedStorage.may_load MockReadonly c st key
        = TypedStorage.may_load MockStorage c st key
  ∧ ReadonlySingleton.load MockReadonly c n st
        = Singleton.load MockStorage c n st
  ∧ ReadonlySingleton.may_load MockReadonly c n st
        = Singleton.may_load MockStorage c n st := by
  refine ⟨?_, rfl, rfl, rfl, rfl⟩
  cases op <;> rfl

/-- C10: save writes at most the single composite key it addresses: every
other raw key of the store holds identical bytes before and after the
call — for the raw-keyed bucket, the name-prefixed bucket, and the
singleton. -/
theorem save_frame {T : Type} (c : Serde T) (s : Store) (k k2 n : Bytes)
    (v : T) (hne : k2 ≠ k) (hneP : k2 ≠ key_pfx n ++ k)
    (hneS : k2 ≠ key_pfx n) :
    (TypedStorage.save MockStorage c s k v).2 k2 = s k2
  ∧ (TypedStorage.save (PrefixedStorage (key_pfx n)) c s k v).2 k2 = s k2
  ∧ (Singleton.save MockStorage c n s v).2 k2 = s k2 := by
  cases hv : c.to_vec v with
  | error e =>
    refine ⟨?_, ?_, ?_⟩ <;> simp [TypedStorage.save, Singleton.save, hv]
  | ok bz =>
    refine ⟨?_, ?_, ?_⟩
    · simp only [TypedStorage.save, hv]
      exact Store.setRaw_other s k k2 bz hne
    · simp only [TypedStorage.save, hv]
      exact Store.setRaw_other s (key_pfx n ++ k) k2 bz hneP
    · simp only [Singleton.save, hv]
      exact Store.setRaw_other s (key_pfx n) k2 bz hneS

/-- Witness for C10: writing at caller key [1] (raw, prefixed under name
[9], and the singleton for name [9]) leaves the distinct raw key [2]
unchanged. -/
theorem save_frame_witness :
    (TypedStorage.save MockStorage natSerde initStore [1] 5).2 [2]
        = initStore [2]
  ∧ (TypedStorage.save (PrefixedStorage (key_pfx [9])) natSerde
        initStore [1] 5).2 [2] = initStore [2]
  ∧ (Singleton.save MockStorage natSerde [9] initStore 5).2 [2]
        = initStore [2] :=
  save_frame natSerde initStore [1] [2] [9] 5
    (by decide) (by decide) (by decide)
